import Mathlib

/-!
Verification of the yabgp BGP protocol engine (`yabgp/core/protocol.py`,
`yabgp/config.py`) against its natural-language specification.

The embedding models, faithfully to the Python source:
  * `parse_buffer` — the frame reader over the per-session receive buffer
    (`BGP.parse_buffer`, protocol.py lines 136-211).  The buffer is a list of
    byte values; calls into the FSM (`header_error`, `open_message_error`)
    are recorded as an event list; the message handlers (`open_received`,
    `keepalive_received`, ...) are abstracted by an oracle giving the outcome
    of processing a message body (ok, or a raised exception), since the
    message decoders live outside the two source files; the one observable
    effect of `open_received` that parse_buffer's control flow fixes — the
    unconditional increment of the received-Opens counter before any
    validation — is recorded as `opensRecvDelta`.
  * `capability_negotiate` — the in-place filtering of the local capability
    dictionary (protocol.py lines 364-375); dictionaries are association
    lists keyed by capability name.  The source iterates the local
    dictionary and calls `.pop` on it inside the loop, so in CPython the
    first pop makes the very next iterator step raise
    `RuntimeError: dictionary changed size during iteration` (the size-change
    check fires even when the popped key was the last one): at most one
    missing key is ever removed, every later key survives, and the
    exception propagates out of `capability_negotiate`.  The model returns
    the final local dictionary together with a flag telling whether the
    call raised; iteration order is the association-list order (CPython 2.7
    dict order is hash-based, but no claim depends on which missing key
    comes first).  Nothing at all happens when the remote set is empty
    (`if ...['remote']:`).
  * `negotiate_hold_time` (protocol.py lines 474-485); the code base is
    Python 2, so `/` on the integer hold time is floor division, modelled by
    Nat division.
  * `send_notification` / `route_refresh_received` statistics updates
    (protocol.py lines 288-306 and 464-472) over the `msg_sent_stat` /
    `msg_recv_stat` counter dictionaries.
  * `update_received`'s address-family classification and archival-sink call
    (protocol.py lines 221-271) over an abstract decoded Update result.

Numeric constants (`HDR_LEN`, `MAX_LEN`, the message type codes and the
header/open error subcodes) come from `yabgp.common.constants`, which is not
among the source files; their values are taken from the spec's wire-format
section and RFC 4271 and no theorem below depends on the exact values of the
error subcodes.
-/

namespace YaBGP

/-- Fixed BGP header size in bytes (`bgp_cons.HDR_LEN`; spec: 19). -/
def HDR_LEN : Nat := 19

/-- Maximum BGP message size in bytes (`bgp_cons.MAX_LEN`; spec: 4096). -/
def MAX_LEN : Nat := 4096

/-- Message type code for Open (`bgp_cons.MSG_OPEN`). -/
def MSG_OPEN : Nat := 1

/-- Message type code for Update (`bgp_cons.MSG_UPDATE`). -/
def MSG_UPDATE : Nat := 2

/-- Message type code for Notification (`bgp_cons.MSG_NOTIFICATION`). -/
def MSG_NOTIFICATION : Nat := 3

/-- Message type code for KeepAlive (`bgp_cons.MSG_KEEPALIVE`). -/
def MSG_KEEPALIVE : Nat := 4

/-- Message type code for RouteRefresh (`bgp_cons.MSG_ROUTEREFRESH`). -/
def MSG_ROUTEREFRESH : Nat := 5

/-- Vendor-variant RouteRefresh type code (`bgp_cons.MSG_CISCOROUTEREFRESH`). -/
def MSG_CISCOROUTEREFRESH : Nat := 128

/-- Header error subcode: connection not synchronized. -/
def ERR_MSG_HDR_CONN_NOT_SYNC : Nat := 1

/-- Header error subcode: bad message length. -/
def ERR_MSG_HDR_BAD_MSG_LEN : Nat := 2

/-- Header error subcode: bad message type. -/
def ERR_MSG_HDR_BAD_MSG_TYPE : Nat := 3

/-- Open message error subcode: unacceptable hold time. -/
def ERR_MSG_OPEN_UNACCPT_HOLD_TIME : Nat := 6

/-- Open message error subcode: bad peer AS. -/
def ERR_MSG_OPEN_BAD_PEER_AS : Nat := 2

/-- Calls `parse_buffer` makes into the FSM: `self.fsm.header_error(sub, data)`
(data omitted in some calls) and `self.fsm.open_message_error(sub)`. -/
inductive FsmEvent where
  | headerError (sub : Nat) (data : Option (List Nat))
  | openMessageError (sub : Nat)
deriving DecidableEq

/-- The message slice `parse_buffer` cuts out of the buffer once the whole
declared length is available: its header type code, the declared length
from the header, and the body `buf[HDR_LEN:length]` handed to the
per-type handler. -/
structure Dispatch where
  msgType : Nat
  declaredLen : Nat
  body : List Nat
deriving DecidableEq

/-- Exceptions a message handler can raise into `parse_buffer`'s
dispatch block (`excep.MessageHeaderError`, `excep.OpenMessageError`,
or anything else, which the outer `except Exception` swallows). -/
inductive Exn where
  | msgHeaderError (sub : Nat)
  | openMsgError (sub : Nat)
  | other
deriving DecidableEq

/-- Outcome of running a message handler on a message body. -/
inductive Outcome where
  | ok
  | raised (e : Exn)
deriving DecidableEq

/-- Result of one `parse_buffer` call: the Python return value, the new
`receive_buffer`, the FSM calls made in order, the message slice extracted
(if the availability check was passed), and the increment applied to
`msg_recv_stat` for Opens by `open_received`. -/
structure ParseResult where
  ret : Bool
  buffer : List Nat
  events : List FsmEvent
  extracted : Option Dispatch
  opensRecvDelta : Nat
deriving DecidableEq

/-- `struct.pack` of a 16-bit big-endian integer, as used for the
diagnostic data of bad-length and bad-type header errors. -/
def pack16 (n : Nat) : List Nat := [n / 256 % 256, n % 256]

/-- The declared total message length: bytes 16 and 17 of the buffer,
big-endian, as unpacked by `struct.unpack` from the 19-byte header. -/
def declaredLen (buf : List Nat) : Nat := 256 * buf.getD 16 0 + buf.getD 17 0

/-- The message type code: byte 18 of the buffer. -/
def msgTypeOf (buf : List Nat) : Nat := buf.getD 18 0

/-- The bad-length header-error events emitted by the length-bounds check
(`if length < bgp_cons.HDR_LEN or length > bgp_cons.MAX_LEN`): one event
carrying the packed offending length, or none. -/
def lenBoundEvents (buf : List Nat) : List FsmEvent :=
  if declaredLen buf < HDR_LEN ∨ MAX_LEN < declaredLen buf then
    [FsmEvent.headerError ERR_MSG_HDR_BAD_MSG_LEN (some (pack16 (declaredLen buf)))]
  else []

/-- The message slice `msg = buf[bgp_cons.HDR_LEN:length]` together with its
header fields. -/
def extractedMsg (buf : List Nat) : Dispatch :=
  { msgType := msgTypeOf buf
    declaredLen := declaredLen buf
    body := (buf.take (declaredLen buf)).drop HDR_LEN }

/-- One call of `BGP.parse_buffer` (protocol.py lines 136-211).  `oracle`
gives the outcome of each message handler on a message body, indexed by the
message type code.  The control flow follows the source exactly: fewer than
19 bytes — return False; marker not sixteen 0xFF bytes — header error
(connection not synchronized), return False; declared length out of
[19, 4096] — header error (bad message length) with the packed length as
data, and processing continues; fewer buffered bytes than the declared
length — return False; otherwise the slice is cut and dispatched by type,
where a `MessageHeaderError` from the Open or KeepAlive handler and an
`OpenMessageError` from the Open handler are reported to the FSM and make
the call return False before the buffer is advanced, any other exception is
swallowed, and an unknown type code yields a bad-message-type header error;
on every path that falls through the dispatch block the buffer is advanced
by exactly the declared length and the call returns True. -/
def parse_buffer (oracle : Nat → List Nat → Outcome) (buf : List Nat) : ParseResult :=
  if buf.length < HDR_LEN then
    { ret := false, buffer := buf, events := [], extracted := none, opensRecvDelta := 0 }
  else if buf.take 16 ≠ List.replicate 16 255 then
    { ret := false, buffer := buf
      events := [FsmEvent.headerError ERR_MSG_HDR_CONN_NOT_SYNC none]
      extracted := none, opensRecvDelta := 0 }
  else if buf.length < declaredLen buf then
    { ret := false, buffer := buf, events := lenBoundEvents buf
      extracted := none, opensRecvDelta := 0 }
  else if msgTypeOf buf = MSG_OPEN then
    match oracle (msgTypeOf buf) (extractedMsg buf).body with
    | Outcome.raised (Exn.msgHeaderError s) =>
        { ret := false, buffer := buf
          events := lenBoundEvents buf ++ [FsmEvent.headerError s none]
          extracted := some (extractedMsg buf), opensRecvDelta := 1 }
    | Outcome.raised (Exn.openMsgError s) =>
        { ret := false, buffer := buf
          events := lenBoundEvents buf ++ [FsmEvent.openMessageError s]
          extracted := some (extractedMsg buf), opensRecvDelta := 1 }
    | _ =>
        { ret := true, buffer := buf.drop (declaredLen buf)
          events := lenBoundEvents buf
          extracted := some (extractedMsg buf), opensRecvDelta := 1 }
  else if msgTypeOf buf = MSG_UPDATE then
    { ret := true, buffer := buf.drop (declaredLen buf), events := lenBoundEvents buf
      extracted := some (extractedMsg buf), opensRecvDelta := 0 }
  else if msgTypeOf buf = MSG_NOTIFICATION then
    { ret := true, buffer := buf.drop (declaredLen buf), events := lenBoundEvents buf
      extracted := some (extractedMsg buf), opensRecvDelta := 0 }
  else if msgTypeOf buf = MSG_KEEPALIVE then
    match oracle (msgTypeOf buf) (extractedMsg buf).body with
    | Outcome.raised (Exn.msgHeaderError s) =>
        { ret := false, buffer := buf
          events := lenBoundEvents buf ++ [FsmEvent.headerError s none]
          extracted := some (extractedMsg buf), opensRecvDelta := 0 }
    | _ =>
        { ret := true, buffer := buf.drop (declaredLen buf)
          events := lenBoundEvents buf
          extracted := some (extractedMsg buf), opensRecvDelta := 0 }
  else if msgTypeOf buf = MSG_ROUTEREFRESH then
    { ret := true, buffer := buf.drop (declaredLen buf), events := lenBoundEvents buf
      extracted := some (extractedMsg buf), opensRecvDelta := 0 }
  else if msgTypeOf buf = MSG_CISCOROUTEREFRESH then
    { ret := true, buffer := buf.drop (declaredLen buf), events := lenBoundEvents buf
      extracted := some (extractedMsg buf), opensRecvDelta := 0 }
  else
    { ret := true, buffer := buf.drop (declaredLen buf)
      events := lenBoundEvents buf ++
        [FsmEvent.headerError ERR_MSG_HDR_BAD_MSG_TYPE (some (pack16 (msgTypeOf buf)))]
      extracted := some (extractedMsg buf), opensRecvDelta := 0 }

/-- The loop `for capability in local: if capability not in remote:
local.pop(capability)` of `capability_negotiate`, iterating the entries in
order.  A key present in the remote key set is kept and iteration
continues; at the first key absent from the remote key set the entry is
popped and the next iterator step raises `RuntimeError` (CPython's
dictionary size-change check fires before the exhaustion check, so this
happens even when the popped entry was the last one), leaving every
not-yet-visited entry in place.  Returns the final dictionary and whether
the loop raised. -/
def popLoop {α : Type} (remoteKeys : List String) :
    List (String × α) → List (String × α) × Bool
  | [] => ([], false)
  | kv :: rest =>
    if kv.1 ∈ remoteKeys then
      (kv :: (popLoop remoteKeys rest).1, (popLoop remoteKeys rest).2)
    else
      (rest, true)

/-- `BGP.capability_negotiate` (protocol.py lines 364-375).  Capability
dictionaries are association lists from capability name to a value of any
type.  When the remote dictionary is truthy (non-empty) the source runs the
pop loop over the local dictionary (see `popLoop`); when the remote
dictionary is empty nothing happens.  Returns the final local dictionary
and whether a `RuntimeError` propagated out of the call. -/
def capability_negotiate {α : Type} (local_ remote : List (String × α)) :
    List (String × α) × Bool :=
  if remote.isEmpty then (local_, false)
  else popLoop (remote.map Prod.fst) local_

/-- The key set of a capability dictionary. -/
def capKeys {α : Type} (d : List (String × α)) : List String := d.map Prod.fst

/-- `BGP.negotiate_hold_time` (protocol.py lines 474-485): given the FSM's
current (locally configured) hold time and the hold time from the peer's
Open message, returns the new `fsm.hold_time`, the new
`fsm.keep_alive_time`, and the FSM calls made.  The source sets
`hold_time = min(hold_time, peer_hold_time)`, reports an
`open_message_error` with the unacceptable-hold-time subcode when the new
hold time is nonzero and below 3, and then derives
`keep_alive_time = hold_time / 3` (Python 2 integer floor division). -/
def negotiate_hold_time (fsmHoldTime peerHoldTime : Nat) :
    Nat × Nat × List FsmEvent :=
  let h := min fsmHoldTime peerHoldTime
  ( h
  , h / 3
  , if h ≠ 0 ∧ h < 3 then
      [FsmEvent.openMessageError ERR_MSG_OPEN_UNACCPT_HOLD_TIME]
    else [] )

/-- The per-type message counters `msg_sent_stat` / `msg_recv_stat`
(protocol.py lines 55-68). -/
structure MsgStat where
  opens : Nat
  notifications : Nat
  updates : Nat
  keepalives : Nat
  routeRefresh : Nat
deriving DecidableEq

/-- The all-zero counter dictionary a fresh `BGP` protocol object starts
with. -/
def MsgStat.init : MsgStat :=
  { opens := 0, notifications := 0, updates := 0, keepalives := 0, routeRefresh := 0 }

/-- Effect of `BGP.send_notification` (protocol.py lines 288-306) on
`msg_sent_stat`: the source increments the Notifications counter at line
297 and then, after the log call, increments it again at line 302. -/
def send_notification_stat (s : MsgStat) : MsgStat :=
  let s1 := { s with notifications := s.notifications + 1 }
  { s1 with notifications := s1.notifications + 1 }

/-- Effect of `BGP.route_refresh_received` (protocol.py lines 464-472) on
`msg_recv_stat`: the source body only logs the received message and touches
no counter. -/
def route_refresh_received_stat (s : MsgStat) : MsgStat := s

/-- Effect of `BGP.send_keepalive` (protocol.py lines 328-339) on
`msg_sent_stat`: one increment of Keepalives (its duplicate increment is
commented out in the source). -/
def send_keepalive_stat (s : MsgStat) : MsgStat :=
  { s with keepalives := s.keepalives + 1 }

/-- Path-attribute type code of MP_REACH_NLRI. -/
def BGPTYPE_MP_REACH_NLRI : Nat := 14

/-- Path-attribute type code of MP_UNREACH_NLRI. -/
def BGPTYPE_MP_UNREACH_NLRI : Nat := 15

/-- `bgp_cons.AFI_SAFI_STR_DICT` entry for plain IPv4 unicast. -/
def AFI_SAFI_IPV4 : Nat × Nat := (1, 1)

/-- A decoded Update message as `Update().parse` returns it to
`update_received`: timestamp, the sub-error field (0 models a falsy /
absent sub-error), the advertised NLRI list, the withdrawn-routes list, and
the path-attribute dictionary.  Each attribute is modelled by its type code
paired with the `afi_safi` pair it carries when it is a multiprotocol
attribute (the component is unused for other attribute codes). -/
structure UpdateResult where
  time : Nat
  sub_error : Nat
  nlri : List (List Nat)
  withdraw : List (List Nat)
  attr : List (Nat × Nat × Nat)
deriving DecidableEq

/-- Dictionary lookup in the path-attribute mapping by attribute type
code. -/
def attrLookup (code : Nat) : List (Nat × Nat × Nat) → Option (Nat × Nat)
  | [] => none
  | kv :: rest => if kv.1 = code then some kv.2 else attrLookup code rest

/-- One call of the archival sink `self.factory.write_msg`, keeping the
arguments the claims are about: the `msg_type` argument and the `afi_safi`
classification. -/
structure WriteMsgCall where
  msgType : Nat
  afiSafi : Nat × Nat
deriving DecidableEq

/-- `BGP.update_received` (protocol.py lines 221-271), restricted to the
archival-sink call it makes.  When the decoded result carries a truthy
sub-error the classification is the IPv4 pair if the NLRI or withdraw list
is non-empty and `(0, 0)` otherwise, and `write_msg` is called with
`msg_type=6`; when there is no sub-error the classification falls back from
NLRI/withdraw content to the `afi_safi` of an MP_REACH_NLRI attribute, then
of an MP_UNREACH_NLRI attribute, then `(0, 0)`, and `write_msg` is called
with `msg_type=MSG_UPDATE`.  Both branches call the sink exactly once. -/
def update_received (r : UpdateResult) : WriteMsgCall :=
  if r.sub_error ≠ 0 then
    { msgType := 6
      afiSafi := if r.nlri ≠ [] ∨ r.withdraw ≠ [] then AFI_SAFI_IPV4 else (0, 0) }
  else
    { msgType := MSG_UPDATE
      afiSafi :=
        if r.nlri ≠ [] ∨ r.withdraw ≠ [] then AFI_SAFI_IPV4
        else
          match attrLookup BGPTYPE_MP_REACH_NLRI r.attr with
          | some p => p
          | none =>
            match attrLookup BGPTYPE_MP_UNREACH_NLRI r.attr with
            | some p => p
            | none => (0, 0) }

/-- Modelled from the spec: the address-family classification as the claim
states it for every decoded Update, sub-error or not — the IPv4 pair when
the decoded NLRI or withdrawn list is non-empty, otherwise the AFI/SAFI of
the MP_REACH_NLRI attribute if present, otherwise that of the
MP_UNREACH_NLRI attribute if present, otherwise `(0, 0)`. -/
def spec_update_afi_safi (r : UpdateResult) : Nat × Nat :=
  if r.nlri ≠ [] ∨ r.withdraw ≠ [] then AFI_SAFI_IPV4
  else
    match attrLookup BGPTYPE_MP_REACH_NLRI r.attr with
    | some p => p
    | none =>
      match attrLookup BGPTYPE_MP_UNREACH_NLRI r.attr with
      | some p => p
      | none => (0, 0)

/-! ## Concrete inputs used by the witnesses -/

/-- Oracle under which every message handler succeeds. -/
def oracleOk : Nat → List Nat → Outcome := fun _ _ => Outcome.ok

/-- Oracle under which the Open handler rejects the peer's Open with a
bad-peer-AS `OpenMessageError`, as `open_received` does when
`fsm.bgp_peering.peer_asn` differs from the AS in the message. -/
def oracleBadPeerAs : Nat → List Nat → Outcome :=
  fun t _ => if t = MSG_OPEN then Outcome.raised (Exn.openMsgError ERR_MSG_OPEN_BAD_PEER_AS)
    else Outcome.ok

/-- One complete 19-byte KeepAlive message followed by 5 extra bytes of a
second message's marker. -/
def kaMsgPlus5 : List Nat := List.replicate 16 255 ++ [0, 19, 4] ++ [255, 255, 255, 255, 255]

/-- A valid marker followed by a header declaring length 5 (below the
19-byte minimum) with the KeepAlive type code. -/
def badLenBuf : List Nat := List.replicate 16 255 ++ [0, 5, 4]

/-- A 19-byte buffer whose marker bytes are all zero. -/
def zeroMarkerBuf : List Nat := List.replicate 19 0

/-- A complete 19-byte Open message frame (the body is empty in the model;
its decode outcome is the oracle's). -/
def openMsgBuf : List Nat := List.replicate 16 255 ++ [0, 19, 1]

/-! ## Helper lemmas about `parse_buffer` -/

/-- Every False return of `parse_buffer` leaves the receive buffer
untouched. -/
lemma parse_buffer_ret_false_buffer (oracle : Nat → List Nat → Outcome)
    (buf : List Nat) :
    (parse_buffer oracle buf).ret = false → (parse_buffer oracle buf).buffer = buf := by
  unfold parse_buffer
  repeat' split
  all_goals simp

/-- Every True return of `parse_buffer` advances the receive buffer by
exactly the declared length. -/
lemma parse_buffer_ret_true_buffer (oracle : Nat → List Nat → Outcome)
    (buf : List Nat) :
    (parse_buffer oracle buf).ret = true →
      (parse_buffer oracle buf).buffer = buf.drop (declaredLen buf) := by
  unfold parse_buffer
  repeat' split
  all_goals simp

/-- Whatever `parse_buffer` extracts is the slice `extractedMsg buf`, and it
is extracted only when the whole declared length is buffered. -/
lemma parse_buffer_extracted_eq (oracle : Nat → List Nat → Outcome)
    (buf : List Nat) (d : Dispatch) :
    (parse_buffer oracle buf).extracted = some d →
      d = extractedMsg buf ∧ declaredLen buf ≤ buf.length := by
  unfold parse_buffer
  repeat' split
  all_goals intro h
  all_goals simp_all

/-- The received-Opens counter is incremented exactly once whenever the
extracted slice carries the Open type code, whatever the handler outcome. -/
lemma parse_buffer_opens_delta (oracle : Nat → List Nat → Outcome)
    (buf : List Nat) (d : Dispatch) :
    (parse_buffer oracle buf).extracted = some d → d.msgType = MSG_OPEN →
      (parse_buffer oracle buf).opensRecvDelta = 1 := by
  intro h hty
  obtain ⟨hde, -⟩ := parse_buffer_extracted_eq oracle buf d h
  subst hde
  replace hty : msgTypeOf buf = MSG_OPEN := hty
  revert h
  unfold parse_buffer
  repeat' split
  all_goals intro h
  all_goals simp_all

/-! ## C1 -/

/-- C1: the frame reader never dispatches a message slice shorter than the
length declared in its header — a slice is extracted only when at least the
declared number of bytes is buffered, and the slice is exactly
`buf[HDR_LEN:length]` for the declared length taken from the buffered
header — and after each fully consumed message (True return) the buffer is
advanced by exactly the declared length, leaving none of the consumed
message's bytes behind; this covers declared lengths outside [19, 4096],
which are dispatched and consumed the same way after the bad-length
report. -/
theorem parse_buffer_no_short_dispatch (oracle : Nat → List Nat → Outcome)
    (buf : List Nat) :
    (∀ d, (parse_buffer oracle buf).extracted = some d →
      d.declaredLen = declaredLen buf ∧ d.declaredLen ≤ buf.length ∧
      d.body = (buf.take d.declaredLen).drop HDR_LEN) ∧
    ((parse_buffer oracle buf).ret = true →
      (parse_buffer oracle buf).buffer = buf.drop (declaredLen buf)) := by
  refine ⟨fun d hd => ?_, parse_buffer_ret_true_buffer oracle buf⟩
  obtain ⟨hde, hle⟩ := parse_buffer_extracted_eq oracle buf d hd
  subst hde
  exact ⟨rfl, hle, rfl⟩

/-! ## C10 -/

/-- C10: on every error return path of `parse_buffer` (marker mismatch,
header error or OpenMessageError from a buffered Open, header error from a
buffered KeepAlive) the call returns False before the buffer-advance
statement, so the receive buffer — and with it the offending message at its
head — is exactly what it was and the next call re-parses the same bytes;
and whenever the extracted slice is an Open the received-Opens counter is
incremented by one before any validation, so a rejected Open still counts
as received on each such re-parse. -/
theorem parse_buffer_error_paths_keep_buffer (oracle : Nat → List Nat → Outcome)
    (buf : List Nat) :
    ((parse_buffer oracle buf).ret = false → (parse_buffer oracle buf).buffer = buf) ∧
    (∀ d, (parse_buffer oracle buf).extracted = some d → d.msgType = MSG_OPEN →
      (parse_buffer oracle buf).opensRecvDelta = 1) :=
  ⟨parse_buffer_ret_false_buffer oracle buf,
   fun d => parse_buffer_opens_delta oracle buf d⟩

/-- Witness for C10: a buffered Open whose handler raises the bad-peer-AS
`OpenMessageError` is left at the head of the buffer with the call
returning False, and the received-Opens counter is still incremented. -/
theorem parse_buffer_error_paths_witness :
    (parse_buffer oracleBadPeerAs openMsgBuf).ret = false ∧
    (parse_buffer oracleBadPeerAs openMsgBuf).buffer = openMsgBuf ∧
    (parse_buffer oracleBadPeerAs openMsgBuf).opensRecvDelta = 1 :=
  ⟨by decide,
   (parse_buffer_error_paths_keep_buffer oracleBadPeerAs openMsgBuf).1 (by decide),
   (parse_buffer_error_paths_keep_buffer oracleBadPeerAs openMsgBuf).2
     (extractedMsg openMsgBuf) (by decide) (by decide)⟩

/-! ## C5 -/

/-- C5: with fewer than 19 bytes buffered, or with a valid header (marker
intact, declared length within bounds) declaring more bytes than are
buffered, `parse_buffer` returns False, leaves the receive buffer
unchanged, extracts nothing and signals nothing — it waits for more
data. -/
theorem parse_buffer_waits (oracle : Nat → List Nat → Outcome) (buf : List Nat)
    (h : buf.length < HDR_LEN ∨
      (buf.take 16 = List.replicate 16 255 ∧ HDR_LEN ≤ declaredLen buf ∧
        declaredLen buf ≤ MAX_LEN ∧ buf.length < declaredLen buf)) :
    (parse_buffer oracle buf).ret = false ∧ (parse_buffer oracle buf).buffer = buf ∧
    (parse_buffer oracle buf).extracted = none ∧ (parse_buffer oracle buf).events = [] := by
  by_cases hshort : buf.length < HDR_LEN
  · unfold parse_buffer
    rw [if_pos hshort]
    exact ⟨rfl, rfl, rfl, rfl⟩
  · obtain ⟨hmark, hlo, hhi, hwait⟩ := h.resolve_left hshort
    unfold parse_buffer
    rw [if_neg hshort, if_neg (by simp [hmark]), if_pos hwait]
    refine ⟨rfl, rfl, rfl, ?_⟩
    simp only [lenBoundEvents, if_neg (by omega : ¬(declaredLen buf < HDR_LEN ∨ MAX_LEN < declaredLen buf))]

/-- Witness for C5, the spec's Scenario C: one complete KeepAlive message
plus 5 extra marker bytes yields exactly one consumed message with the 5
bytes retained, and the retained 5 bytes alone make the next call wait. -/
theorem parse_buffer_waits_witness :
    (parse_buffer oracleOk kaMsgPlus5).ret = true ∧
    (parse_buffer oracleOk kaMsgPlus5).buffer = [255, 255, 255, 255, 255] ∧
    (parse_buffer oracleOk [255, 255, 255, 255, 255]).ret = false ∧
    (parse_buffer oracleOk [255, 255, 255, 255, 255]).buffer = [255, 255, 255, 255, 255] :=
  ⟨by decide, by decide,
   (parse_buffer_waits oracleOk [255, 255, 255, 255, 255] (Or.inl (by decide))).1,
   (parse_buffer_waits oracleOk [255, 255, 255, 255, 255] (Or.inl (by decide))).2.1⟩

/-! ## C8 -/

/-- C8: a buffered header with intact marker whose declared length lies
outside [19, 4096] makes `parse_buffer` signal a bad-message-length header
error to the FSM carrying the packed offending length as diagnostic data,
and draining continues past the report: whenever the declared number of
bytes is buffered the message slice is still extracted. -/
theorem parse_buffer_bad_length_reports_and_continues
    (oracle : Nat → List Nat → Outcome) (buf : List Nat)
    (hlen : HDR_LEN ≤ buf.length)
    (hmark : buf.take 16 = List.replicate 16 255)
    (hbad : declaredLen buf < HDR_LEN ∨ MAX_LEN < declaredLen buf) :
    FsmEvent.headerError ERR_MSG_HDR_BAD_MSG_LEN (some (pack16 (declaredLen buf)))
      ∈ (parse_buffer oracle buf).events ∧
    (declaredLen buf ≤ buf.length →
      (parse_buffer oracle buf).extracted = some (extractedMsg buf)) := by
  have hev : lenBoundEvents buf =
      [FsmEvent.headerError ERR_MSG_HDR_BAD_MSG_LEN (some (pack16 (declaredLen buf)))] := by
    simp only [lenBoundEvents, if_pos hbad]
  unfold parse_buffer
  rw [if_neg (by omega), if_neg (by simp [hmark])]
  by_cases hwait : buf.length < declaredLen buf
  · rw [if_pos hwait]
    exact ⟨by simp [hev], fun hge => absurd hge (by omega)⟩
  · rw [if_neg hwait]
    repeat' split
    all_goals exact ⟨by simp [hev], fun _ => rfl⟩

/-- Witness for C8: a header declaring length 5 produces the bad-length
event with packed data `[0, 5]` and the (empty-bodied) message is still
extracted. -/
theorem parse_buffer_bad_length_witness :
    FsmEvent.headerError ERR_MSG_HDR_BAD_MSG_LEN (some [0, 5])
      ∈ (parse_buffer oracleOk badLenBuf).events ∧
    (parse_buffer oracleOk badLenBuf).extracted = some (extractedMsg badLenBuf) := by
  have h := parse_buffer_bad_length_reports_and_continues oracleOk badLenBuf
    (by decide) (by decide) (by decide)
  exact ⟨h.1, h.2 (by decide)⟩

/-! ## C9 -/

/-- C9: a receive buffer of at least 19 bytes whose first 16 bytes are not
all 0xFF makes `parse_buffer` signal exactly one connection-not-synchronized
header error to the FSM and return False with the buffer untouched and
nothing extracted — all further extraction from this buffer content
stops. -/
theorem parse_buffer_marker_mismatch_stops (oracle : Nat → List Nat → Outcome)
    (buf : List Nat)
    (hlen : HDR_LEN ≤ buf.length)
    (hmark : buf.take 16 ≠ List.replicate 16 255) :
    parse_buffer oracle buf =
      { ret := false, buffer := buf
        events := [FsmEvent.headerError ERR_MSG_HDR_CONN_NOT_SYNC none]
        extracted := none, opensRecvDelta := 0 } := by
  unfold parse_buffer
  rw [if_neg (by omega), if_pos hmark]

/-- Witness for C9: a 19-byte all-zero buffer is rejected with the
connection-not-synchronized header error and left in place. -/
theorem parse_buffer_marker_mismatch_witness :
    parse_buffer oracleOk zeroMarkerBuf =
      { ret := false, buffer := zeroMarkerBuf
        events := [FsmEvent.headerError ERR_MSG_HDR_CONN_NOT_SYNC none]
        extracted := none, opensRecvDelta := 0 } :=
  parse_buffer_marker_mismatch_stops oracleOk zeroMarkerBuf (by decide) (by decide)

/-! ## C2 -/

lemma popLoop_cons_mem {α : Type} (remoteKeys : List String) (kv : String × α)
    (rest : List (String × α)) (h : kv.1 ∈ remoteKeys) :
    popLoop remoteKeys (kv :: rest) =
      (kv :: (popLoop remoteKeys rest).1, (popLoop remoteKeys rest).2) := by
  simp only [popLoop, if_pos h]

lemma popLoop_cons_missing {α : Type} (remoteKeys : List String) (kv : String × α)
    (rest : List (String × α)) (h : kv.1 ∉ remoteKeys) :
    popLoop remoteKeys (kv :: rest) = (rest, true) := by
  simp only [popLoop, if_neg h]

/-- Whatever dictionary the pop loop leaves behind is a sub-collection of
the dictionary it started from. -/
lemma popLoop_entries_subset {α : Type} (remoteKeys : List String)
    (l : List (String × α)) : (popLoop remoteKeys l).1 ⊆ l := by
  induction l with
  | nil => simp [popLoop]
  | cons kv rest ih =>
    by_cases h : kv.1 ∈ remoteKeys
    · rw [popLoop_cons_mem remoteKeys kv rest h]
      exact List.cons_subset_cons kv ih
    · rw [popLoop_cons_missing remoteKeys kv rest h]
      exact fun x hx => List.mem_cons_of_mem kv hx

/-- The pop loop terminates normally exactly when every key of the
dictionary is among the remote keys (any pop raises on the next iterator
step). -/
lemma popLoop_normal_iff {α : Type} (remoteKeys : List String)
    (l : List (String × α)) :
    (popLoop remoteKeys l).2 = false ↔ ∀ kv ∈ l, kv.1 ∈ remoteKeys := by
  induction l with
  | nil => simp [popLoop]
  | cons kv rest ih =>
    by_cases h : kv.1 ∈ remoteKeys
    · rw [popLoop_cons_mem remoteKeys kv rest h]
      constructor
      · intro h2 kv2 hkv2
        rcases List.mem_cons.mp hkv2 with he | hm
        · exact he ▸ h
        · exact (ih.mp h2) kv2 hm
      · intro h2
        exact ih.mpr fun kv2 hm => h2 kv2 (List.mem_cons_of_mem kv hm)
    · rw [popLoop_cons_missing remoteKeys kv rest h]
      constructor
      · intro h2
        exact absurd h2 (by simp)
      · intro h2
        exact absurd (h2 kv (List.mem_cons_self kv rest)) h

/-- A normal return of the pop loop never popped anything: the dictionary
is unchanged. -/
lemma popLoop_normal_id {α : Type} (remoteKeys : List String)
    (l : List (String × α)) :
    (popLoop remoteKeys l).2 = false → (popLoop remoteKeys l).1 = l := by
  induction l with
  | nil => intro _; simp [popLoop]
  | cons kv rest ih =>
    by_cases h : kv.1 ∈ remoteKeys
    · rw [popLoop_cons_mem remoteKeys kv rest h]
      intro h2
      exact congrArg (kv :: ·) (ih h2)
    · rw [popLoop_cons_missing remoteKeys kv rest h]
      intro h2
      exact absurd h2 (by simp)

/-- A raising run of the pop loop removed exactly one entry before the
iterator's size-change check fired. -/
lemma popLoop_raised_length {α : Type} (remoteKeys : List String)
    (l : List (String × α)) :
    (popLoop remoteKeys l).2 = true →
      (popLoop remoteKeys l).1.length + 1 = l.length := by
  induction l with
  | nil => intro h; simp [popLoop] at h
  | cons kv rest ih =>
    by_cases h : kv.1 ∈ remoteKeys
    · rw [popLoop_cons_mem remoteKeys kv rest h]
      intro h2
      have := ih h2
      simp only [List.length_cons]
      omega
    · rw [popLoop_cons_missing remoteKeys kv rest h]
      intro _
      simp [List.length_cons]

/-- Counterexample to C2 as stated, in both failure modes.  With two local
capabilities and a non-empty remote set sharing neither key, the pop loop
removes the first local entry and then raises `RuntimeError`, so the
second local key — which the remote side never advertised — survives in
the effective set: the effective key set is not a subset of the remote key
set, and an exception propagates.  And with an empty remote set the source
skips filtering entirely, leaving a key the remote side never advertised
in place with a normal return. -/
theorem capability_negotiate_not_subset_remote_cex :
    capability_negotiate [("four_bytes_as", true), ("graceful_restart", true)]
        [("route_refresh", false)] = ([("graceful_restart", true)], true) ∧
    "graceful_restart" ∈
      capKeys (capability_negotiate [("four_bytes_as", true), ("graceful_restart", true)]
        [("route_refresh", false)]).1 ∧
    "graceful_restart" ∉ capKeys [("route_refresh", false)] ∧
    capability_negotiate [("four_bytes_as", true)] ([] : List (String × Bool)) =
      ([("four_bytes_as", true)], false) ∧
    "four_bytes_as" ∉ capKeys ([] : List (String × Bool)) := by
  refine ⟨by decide, by decide, by decide, by decide, by decide⟩

/-- C2 as amended: however `capability_negotiate` ends, the effective local
capability set is a sub-collection of the originally configured local set —
entry for entry, so negotiation never adds a capability absent from the
local configuration — and its key set is a subset of the local key set.
The call returns normally exactly when the remote set is empty (filtering
is skipped) or every local key is already among the remote keys; on a
normal return with a non-empty remote set the effective key set is a
subset of the remote-advertised key set.  In every other case the pop loop
removes exactly one entry — the first local capability missing from the
remote set — and then raises `RuntimeError` out of the call, leaving any
later missing keys in the effective set. -/
theorem capability_negotiate_subset {α : Type} (local_ remote : List (String × α)) :
    (capability_negotiate local_ remote).1 ⊆ local_ ∧
    capKeys (capability_negotiate local_ remote).1 ⊆ capKeys local_ ∧
    ((capability_negotiate local_ remote).2 = false ↔
      (remote = [] ∨ ∀ k ∈ capKeys local_, k ∈ capKeys remote)) ∧
    ((capability_negotiate local_ remote).2 = false → remote ≠ [] →
      capKeys (capability_negotiate local_ remote).1 ⊆ capKeys remote) ∧
    ((capability_negotiate local_ remote).2 = true →
      (capability_negotiate local_ remote).1.length + 1 = local_.length) := by
  cases remote with
  | nil =>
    refine ⟨fun kv hkv => hkv, fun k hk => hk, ⟨fun _ => Or.inl rfl, fun _ => rfl⟩,
      fun _ hne => absurd rfl hne, fun h => absurd h (by simp [capability_negotiate])⟩
  | cons r rs =>
    have hres : capability_negotiate local_ (r :: rs) =
        popLoop ((r :: rs).map Prod.fst) local_ := rfl
    rw [hres]
    refine ⟨popLoop_entries_subset _ local_, fun k hk => ?_, ?_, fun hnorm _ k hk => ?_, ?_⟩
    · obtain ⟨kv, hkv, hfst⟩ := List.mem_map.mp hk
      exact hfst ▸ List.mem_map_of_mem Prod.fst (popLoop_entries_subset _ local_ hkv)
    · rw [popLoop_normal_iff]
      constructor
      · intro h2
        refine Or.inr fun k hk => ?_
        obtain ⟨kv, hkv, hfst⟩ := List.mem_map.mp hk
        exact hfst ▸ h2 kv hkv
      · intro h2 kv hkv
        rcases h2 with he | h2
        · exact absurd he (by simp)
        · exact h2 kv.1 (List.mem_map_of_mem Prod.fst hkv)
    · rw [popLoop_normal_id _ local_ hnorm] at hk
      obtain ⟨kv, hkv, hfst⟩ := List.mem_map.mp hk
      exact hfst ▸ (popLoop_normal_iff _ local_).mp hnorm kv hkv
    · exact popLoop_raised_length _ local_

/-- Witness for the amended C2 at a concrete input: a one-capability local
set whose key the remote side advertised is returned unchanged with a
normal return, and its key set is inside the remote key set. -/
theorem capability_negotiate_subset_witness :
    capability_negotiate [("route_refresh", true)] [("route_refresh", false)] =
      ([("route_refresh", true)], false) ∧
    capKeys (capability_negotiate [("route_refresh", true)] [("route_refresh", false)]).1 ⊆
      capKeys [("route_refresh", false)] :=
  ⟨by decide,
   (capability_negotiate_subset [("route_refresh", true)]
      [("route_refresh", false)]).2.2.2.1 (by decide) (by decide)⟩

/-! ## C3 -/

/-- C3: `negotiate_hold_time` sets the session hold time to the minimum of
the FSM's (locally configured) hold time and the hold time from the peer's
Open message, and it reports the unacceptable-hold-time `OpenMessageError`
to the FSM exactly when that minimum is nonzero and below 3 seconds — so
negotiated values 1 and 2 are rejected while 0 and everything from 3 up
pass silently. -/
lemma negotiate_hold_time_eq (localHold peerHold : Nat) :
    negotiate_hold_time localHold peerHold =
      ( min localHold peerHold
      , min localHold peerHold / 3
      , if min localHold peerHold ≠ 0 ∧ min localHold peerHold < 3 then
          [FsmEvent.openMessageError ERR_MSG_OPEN_UNACCPT_HOLD_TIME]
        else [] ) := rfl

theorem negotiate_hold_time_min_and_error (localHold peerHold : Nat) :
    (negotiate_hold_time localHold peerHold).1 = min localHold peerHold ∧
    ((negotiate_hold_time localHold peerHold).2.2 =
        [FsmEvent.openMessageError ERR_MSG_OPEN_UNACCPT_HOLD_TIME] ↔
      (min localHold peerHold ≠ 0 ∧ min localHold peerHold < 3)) ∧
    ((negotiate_hold_time localHold peerHold).2.2 = [] ↔
      (min localHold peerHold = 0 ∨ 3 ≤ min localHold peerHold)) := by
  rw [negotiate_hold_time_eq]
  by_cases h : min localHold peerHold ≠ 0 ∧ min localHold peerHold < 3
  · rw [if_pos h]
    refine ⟨rfl, ⟨fun _ => h, fun _ => rfl⟩, ?_⟩
    constructor
    · intro he
      exact absurd he (by simp)
    · intro hc
      exact absurd hc (by omega)
  · rw [if_neg h]
    refine ⟨rfl, ?_, ⟨fun _ => by omega, fun _ => rfl⟩⟩
    constructor
    · intro he
      exact absurd he.symm (by simp)
    · intro hc
      exact absurd hc h

/-! ## C4 -/

/-- C4: after hold-time negotiation the keepalive interval is exactly the
negotiated hold time divided by 3 (Python 2 integer division), for every
negotiated hold time; hold time 0 yields interval 0 (keepalive effectively
disabled) and a negotiated hold time of 90 yields interval 30. -/
theorem negotiate_hold_time_keepalive_third (localHold peerHold : Nat) :
    (negotiate_hold_time localHold peerHold).2.1 =
      (negotiate_hold_time localHold peerHold).1 / 3 ∧
    ((negotiate_hold_time localHold peerHold).1 = 0 →
      (negotiate_hold_time localHold peerHold).2.1 = 0) ∧
    (negotiate_hold_time 90 120).1 = 90 ∧ (negotiate_hold_time 90 120).2.1 = 30 ∧
    (negotiate_hold_time 0 50).2.1 = 0 := by
  refine ⟨rfl, fun h0 => ?_, by decide, by decide, by decide⟩
  have : min localHold peerHold = 0 := h0
  show min localHold peerHold / 3 = 0
  omega

/-! ## C6 -/

/-- C6 fails on the code: `send_notification` increments the
sent-Notifications counter twice (the increment statement is duplicated at
protocol.py lines 297 and 302, where `send_keepalive` has the duplicate
commented out), and `route_refresh_received` never increments the
received-RouteRefresh counter at all — starting from zeroed statistics one
sent Notification is counted as 2 and one received RouteRefresh as 0,
while one sent KeepAlive is correctly counted as 1. -/
theorem send_notification_double_count_bug :
    (send_notification_stat MsgStat.init).notifications = 2 ∧
    (route_refresh_received_stat MsgStat.init).routeRefresh = 0 ∧
    (send_keepalive_stat MsgStat.init).keepalives = 1 :=
  ⟨rfl, rfl, rfl⟩

/-! ## C7 -/

/-- Concrete decoded Update: a populated sub-error, empty NLRI and withdraw
lists, and an MP_REACH_NLRI attribute carrying AFI/SAFI (2, 1). -/
def subErrorMpUpdate : UpdateResult :=
  { time := 0, sub_error := 3, nlri := [], withdraw := [], attr := [(14, 2, 1)] }

/-- Counterexample to C7 as stated: on a decoded Update with a populated
sub-error, empty NLRI/withdraw lists and an MP_REACH_NLRI attribute
carrying AFI/SAFI (2, 1), the source classifies the archival-sink call as
(0, 0) — the sub-error branch of `update_received` never consults the
multiprotocol attributes — while the claim's classification rule yields
(2, 1). -/
theorem update_received_sub_error_cex :
    (update_received subErrorMpUpdate).afiSafi = (0, 0) ∧
    spec_update_afi_safi subErrorMpUpdate = (2, 1) ∧
    ((0, 0) : Nat × Nat) ≠ (2, 1) := by
  refine ⟨rfl, rfl, by decide⟩

/-- C7 as amended: `update_received` invokes the archival sink exactly once
for every decoded Update; when the result carries no sub-error the
classification follows the claimed chain — the IPv4 pair when the NLRI or
withdrawn list is non-empty, else the AFI/SAFI of the MP_REACH_NLRI
attribute if present, else that of the MP_UNREACH_NLRI attribute if
present, else (0, 0) — but when the sub-error is populated the sink is
still invoked (with message type 6 for the partial result) with a
classification that is the IPv4 pair when the NLRI or withdrawn list is
non-empty and (0, 0) otherwise, without the multiprotocol fallback. -/
theorem update_received_afi_safi (r : UpdateResult) :
    (r.sub_error = 0 →
      update_received r = { msgType := MSG_UPDATE, afiSafi := spec_update_afi_safi r }) ∧
    (r.sub_error ≠ 0 →
      update_received r =
        { msgType := 6
          afiSafi := if r.nlri ≠ [] ∨ r.withdraw ≠ [] then AFI_SAFI_IPV4 else (0, 0) }) := by
  constructor
  · intro h
    simp [update_received, spec_update_afi_safi, h]
  · intro h
    simp [update_received, h]

end YaBGP
